import Mathlib

/-!
Shallow embedding of `src/validation_service/core/validator.py`
(classes `BaseValidator`, `RawValidator`, `SourceValidator`).

The validators walk a directory tree, match CSV files against declared
column requirements and append finding records to `self.errors`.  Here
every method is a pure function returning the list of findings it appends,
in emission order; `validate` concatenates them exactly as the Python run
does.  The filesystem is modelled as the listing of the base directory:
a map from folder name to that folder's directory entries.  pandas is an
external collaborator, so a cell value is represented by its observable
behaviour under the three pandas operations the validator calls on it
(`pd.isna`, `pd.to_numeric`, `pd.to_datetime`), and `pd.read_csv` on a
path is represented by its outcome (a table, or the exception message).
-/

/-- One record appended to `self.errors` and later serialized by
`_generate_report`; fields as in the report header
`error_level, error_text, file_name, folder_name, line_number`. -/
structure Finding where
  error_level : String
  error_text : String
  file_name : String
  folder_name : String
  line_number : String
deriving DecidableEq, Repr

/-- A cell value as the validator observes it through pandas:
`isNA` is `pd.isna(value)`; `numericOk` is whether `pd.to_numeric(value)`
succeeds (the `downcast='integer'` variant used for `int` columns succeeds
on exactly the same values — `downcast` only affects the result dtype);
`datetimeOk` is whether `pd.to_datetime(value)` succeeds. -/
structure Cell where
  isNA : Bool
  numericOk : Bool
  datetimeOk : Bool
deriving DecidableEq, Repr

/-- A loaded `pd.DataFrame`: the column list (`df.columns`) and the cell
series of each column (`df[column]`). -/
structure Table where
  columns : List String
  data : List (String × List Cell)
deriving DecidableEq, Repr

/-- `df[column]` for a column present in the frame. -/
def Table.col (t : Table) (c : String) : List Cell :=
  (t.data.lookup c).getD []

/-- One column requirement `{type, nullable}`; `nullable` already carries
the `requirements.get("nullable", False)` default. -/
structure ColReq where
  type : String
  nullable : Bool
deriving DecidableEq, Repr

/-- One directory entry inside a configured folder: its name, whether it is
a regular file (`Path.is_file`), and the outcome of `pd.read_csv` on its
path (`.error msg` when reading raises, e.g. for a directory or a
malformed file). -/
structure FolderEntry where
  name : String
  isFile : Bool
  read : Except String Table
deriving Repr

/-- The base directory's listing: folder name ↦ that folder's entries, in
`iterdir` order.  `base_path/folder` exists iff the name is a key. -/
abbrev BaseDir := List (String × List FolderEntry)

/-- `str(base_path / name)`: `pathlib` joins with a separator. -/
def joinPath (a b : String) : String := a ++ "/" ++ b

/-- `file_path.suffix == ".csv"` for a plain file name: the name ends in
`.csv` (checked on the character list). -/
def hasCsvSuffix (name : String) : Bool := List.isSuffixOf ".csv".data name.data

/-- RAW-mode configuration `config["raw"]`: the `required_folders` list and
`file_requirements` (folder ↦ its `required_columns` mapping, in
declaration order). -/
structure RawConfig where
  required_folders : List String
  file_requirements : List (String × List (String × ColReq))
deriving Repr

/-- SOURCE-mode configuration `config["source"]`: `required_folders` and
`folder_file_requirements` (folder ↦ expected file name ↦ its `columns`
mapping). -/
structure SourceConfig where
  required_folders : List String
  folder_file_requirements : List (String × List (String × List (String × ColReq)))
deriving Repr

/-- The body of the `_check_folders` loop for one required folder: error if
`base_path/folder` does not exist, else warning if `iterdir` yields no
entry, else nothing. -/
def folderFindings (base : String) (fs : BaseDir) (folder : String) : List Finding :=
  match fs.lookup folder with
  | none =>
      [⟨"error", "Required folder '" ++ folder ++ "' is missing",
        "", joinPath base folder, ""⟩]
  | some entries =>
      if entries.isEmpty then
        [⟨"warning", "Folder '" ++ folder ++ "' does not contain any file",
          "", joinPath base folder, ""⟩]
      else []

/-- `BaseValidator._check_folders`: the loop over `required_folders`. -/
def check_folders (base : String) (fs : BaseDir) (required_folders : List String) :
    List Finding :=
  required_folders.flatMap (folderFindings base fs)

/-- `RawValidator._validate_columns`: reject non-`.csv` names, surface a
read failure, otherwise report each required column absent from
`df.columns`.  `required_columns` is the RAW config mapping; iterating it
in Python yields its keys. -/
def validate_columns (folderStr fileName : String) (readResult : Except String Table)
    (required_columns : List (String × ColReq)) : List Finding :=
  if hasCsvSuffix fileName then
    match readResult with
    | .ok df =>
        ((required_columns.map Prod.fst).filter fun col =>
            !df.columns.contains col).map fun col =>
          ⟨"error", "Required column '" ++ col ++ "' is missing",
            fileName, folderStr, ""⟩
    | .error e =>
        [⟨"error", "Failed to read " ++ joinPath folderStr fileName ++ ": " ++ e,
          fileName, folderStr, ""⟩]
  else
    [⟨"error", "Unsupported file format: " ++ joinPath folderStr fileName,
      fileName, folderStr, ""⟩]

/-- `RawValidator._check_files`: skip absent folders silently; inside an
existing folder run `_validate_columns` on every regular file, with the
folder's single shared `required_columns` set. -/
def RawValidator.check_files (base : String) (fs : BaseDir) (cfg : RawConfig) :
    List Finding :=
  cfg.file_requirements.flatMap fun fr =>
    match fs.lookup fr.1 with
    | none => []
    | some entries =>
        entries.flatMap fun e =>
          if e.isFile then
            validate_columns (joinPath base fr.1) e.name e.read fr.2
          else []

/-- `RawValidator.validate` (the findings it accumulates; report writing is
the excluded sink, its filesystem effect is `generate_report_fs` below). -/
def RawValidator.validate (cfg : RawConfig) (base : String) (fs : BaseDir) :
    List Finding :=
  check_folders base fs cfg.required_folders ++ RawValidator.check_files base fs cfg

/-- The loop body of `SourceValidator._validate_column_type` for one
`(idx, value)` of `enumerate(df[column], start=2)`: the NULL check with the
nullability policy, then the type dispatch.  The unrecognized-type `else`
branch sits inside the row loop in the source, so it contributes one
finding per (non-null) row. -/
def cellFindings (column expected_type fileName folderStr : String) (nullable : Bool)
    (idx : Nat) (c : Cell) : List Finding :=
  if c.isNA then
    if !nullable then
      [⟨"error", "NULL value not allowed for the column " ++ column,
        fileName, folderStr, toString idx⟩]
    else []
  else if expected_type = "int" then
    if c.numericOk then [] else
      [⟨"error", "Wrong datatype for the column " ++ column,
        fileName, folderStr, toString idx⟩]
  else if expected_type = "float" then
    if c.numericOk then [] else
      [⟨"error", "Wrong datatype for the column " ++ column,
        fileName, folderStr, toString idx⟩]
  else if expected_type = "datetime" then
    if c.datetimeOk then [] else
      [⟨"error", "Wrong datatype for the column " ++ column,
        fileName, folderStr, toString idx⟩]
  else if expected_type = "str" then []
  else
    [⟨"error", "Unsupported data type '" ++ expected_type ++ "' for column " ++ column,
      fileName, folderStr, ""⟩]

/-- The row loop of `_validate_column_type`, indexing from `start=2`
because the CSV header is line 1. -/
def validateCellsFrom (column expected_type fileName folderStr : String)
    (nullable : Bool) : Nat → List Cell → List Finding
  | _, [] => []
  | idx, c :: rest =>
      cellFindings column expected_type fileName folderStr nullable idx c ++
        validateCellsFrom column expected_type fileName folderStr nullable (idx + 1) rest

/-- `SourceValidator._validate_column_type`.  It is only called with a
column present in `df`, so the surrounding `try/except` ("Error validating
column …") never fires and is not modelled. -/
def SourceValidator.validate_column_type (df : Table) (column expected_type : String)
    (fileName folderStr : String) (nullable : Bool) : List Finding :=
  validateCellsFrom column expected_type fileName folderStr nullable 2 (df.col column)

/-- `SourceValidator._validate_file_schema`: format check, read, the
missing-column early return, the extra-column warnings, then the
per-declared-column type pass. -/
def SourceValidator.validate_file_schema (folderStr fileName : String)
    (readResult : Except String Table) (required_columns : List (String × ColReq)) :
    List Finding :=
  if hasCsvSuffix fileName then
    match readResult with
    | .ok df =>
        let missing := (required_columns.map Prod.fst).filter fun col =>
          !df.columns.contains col
        if !missing.isEmpty then
          missing.map fun col =>
            ⟨"error", "Required column '" ++ col ++ "' is missing",
              fileName, folderStr, ""⟩
        else
          (df.columns.filter fun col =>
              !(required_columns.map Prod.fst).contains col).map (fun col =>
            (⟨"warning", "Unexpected column '" ++ col ++ "' found",
              fileName, folderStr, ""⟩ : Finding)) ++
          required_columns.flatMap fun cr =>
            SourceValidator.validate_column_type df cr.1 cr.2.type
              fileName folderStr cr.2.nullable
    | .error e =>
        [⟨"error", "Failed to read " ++ joinPath folderStr fileName ++ ": " ++ e,
          fileName, folderStr, ""⟩]
  else
    [⟨"error", "Unsupported file format: " ++ joinPath folderStr fileName,
      fileName, folderStr, ""⟩]

/-- `SourceValidator._check_files`: skip absent folders; for each expected
file name, error if no entry of that name exists (`file_path.exists()`),
else validate its schema. -/
def SourceValidator.check_files (base : String) (fs : BaseDir) (cfg : SourceConfig) :
    List Finding :=
  cfg.folder_file_requirements.flatMap fun fr =>
    match fs.lookup fr.1 with
    | none => []
    | some entries =>
        fr.2.flatMap fun freq =>
          match entries.find? (fun e => e.name == freq.1) with
          | none =>
              [⟨"error", "Required file '" ++ freq.1 ++ "' is missing",
                freq.1, joinPath base fr.1, ""⟩]
          | some e =>
              SourceValidator.validate_file_schema (joinPath base fr.1) freq.1 e.read freq.2

/-- `SourceValidator.validate` (accumulated findings). -/
def SourceValidator.validate (cfg : SourceConfig) (base : String) (fs : BaseDir) :
    List Finding :=
  check_folders base fs cfg.required_folders ++ SourceValidator.check_files base fs cfg

/-- The filesystem effect of `BaseValidator._generate_report`: the folder
`validation_report` under the base path is created if absent
(`mkdir(exist_ok=True)`) and gains the freshly written report file. -/
def generate_report_fs (fs : BaseDir) (reportFile : FolderEntry) : BaseDir :=
  match fs.lookup "validation_report" with
  | none => fs ++ [("validation_report", [reportFile])]
  | some _ =>
      fs.map fun p =>
        if p.1 = "validation_report" then (p.1, p.2 ++ [reportFile]) else p

/-! Concrete cells and scenarios used by counterexamples and witnesses.
`cellNum` behaves like a numeric literal cell ("1"), `cellText` like
non-numeric text ("abc"), `cellNA` like an empty cell (pandas `NaN`). -/

def cellNum : Cell := ⟨false, true, true⟩

def cellText : Cell := ⟨false, false, false⟩

def cellNA : Cell := ⟨true, false, false⟩

/-- A CSV with single column `age` whose 3rd data row holds `"abc"`. -/
def rawAgeTable : Table := ⟨["age"], [("age", [cellNum, cellNum, cellText])]⟩

/-- A base directory whose folder `data` holds the one file `x.csv`. -/
def rawAgeFs : BaseDir := [("data", [⟨"x.csv", true, .ok rawAgeTable⟩])]

/-- RAW configuration: folder `data` required, column `age` declared `int`. -/
def rawAgeConfig : RawConfig := ⟨["data"], [("data", [("age", ⟨"int", false⟩)])]⟩

/-- A CSV with one column `b` of two numeric data rows. -/
def twoRowTable : Table := ⟨["b"], [("b", [cellNum, cellNum])]⟩

/-- A CSV with the single column `id` and one numeric row. -/
def idOnlyTable : Table := ⟨["id"], [("id", [cellNum])]⟩

/-- Requirements `id:int, ts:datetime` as declared in the SOURCE schema. -/
def idTsReqs : List (String × ColReq) := [("id", ⟨"int", false⟩), ("ts", ⟨"datetime", false⟩)]

/-- A CSV with column `x` whose 2nd data row is an empty cell. -/
def midNullTable : Table := ⟨["x"], [("x", [cellNum, cellNA, cellNum])]⟩

/-- A CSV with declared column `id` plus the undeclared column `extra`. -/
def extraColTable : Table :=
  ⟨["id", "extra"], [("id", [cellNum]), ("extra", [cellText])]⟩

/-- A base directory with folder `d` containing a single subdirectory and
no regular file. -/
def subdirOnlyFs : BaseDir := [("d", [⟨"sub", false, Except.error "IsADirectoryError"⟩])]

/-- The base directory of the C9 witness run: folder `d` with the file
`f.csv` whose column `x` has a null 2nd data row. -/
def nullRunFs : BaseDir := [("d", [⟨"f.csv", true, Except.ok midNullTable⟩])]

/-- SOURCE configuration expecting `f.csv` with `x:int` inside folder `d`. -/
def nullRunSourceCfg : SourceConfig := ⟨[], [("d", [("f.csv", [("x", ⟨"int", false⟩)])])]⟩

/-- A freshly written report file as `_generate_report` leaves it on disk
(its content is never read back, so any read outcome will do). -/
def reportEntry : FolderEntry :=
  ⟨"raw_validation_report_20240101_000000.csv", true, Except.error "report"⟩

/-! ### String helpers -/

lemma string_append_left_cancel {a b c : String} (h : a ++ b = a ++ c) : b = c := by
  apply String.ext
  have hd := congrArg String.data h
  rw [String.data_append, String.data_append] at hd
  exact List.append_cancel_left hd

lemma string_append_take_ne (p q x y : String) (n : Nat) (hp : n ≤ p.data.length)
    (hq : n ≤ q.data.length) (hne : p.data.take n ≠ q.data.take n) :
    p ++ x ≠ q ++ y := by
  intro h
  have hd := congrArg String.data h
  rw [String.data_append, String.data_append] at hd
  have ht := congrArg (List.take n) hd
  rw [List.take_append_of_le_length hp, List.take_append_of_le_length hq] at ht
  exact hne ht

/-! ### Structure of the cell loop -/

lemma validateCellsFrom_append (column t fn fd : String) (nb : Bool)
    (xs ys : List Cell) (idx : Nat) :
    validateCellsFrom column t fn fd nb idx (xs ++ ys)
      = validateCellsFrom column t fn fd nb idx xs
        ++ validateCellsFrom column t fn fd nb (idx + xs.length) ys := by
  induction xs generalizing idx with
  | nil => simp [validateCellsFrom]
  | cons c rest ih =>
      have harith : idx + (c :: rest).length = (idx + 1) + rest.length := by
        simp; omega
      rw [List.cons_append, validateCellsFrom, validateCellsFrom, ih (idx + 1),
        harith, List.append_assoc]

/-! ### Line numbers of folder- and RAW-level findings -/

lemma folderFindings_line_number {base : String} {fs : BaseDir} {folder : String}
    {f : Finding} (hf : f ∈ folderFindings base fs folder) : f.line_number = "" := by
  unfold folderFindings at hf
  cases hlk : fs.lookup folder <;> rw [hlk] at hf <;> simp at hf
  · subst hf; rfl
  · obtain ⟨-, rfl⟩ := hf; rfl

lemma check_folders_line_number {base : String} {fs : BaseDir} {req : List String}
    {f : Finding} (hf : f ∈ check_folders base fs req) : f.line_number = "" := by
  unfold check_folders at hf
  rw [List.mem_flatMap] at hf
  obtain ⟨folder, -, hf⟩ := hf
  exact folderFindings_line_number hf

lemma validate_columns_line_number {folderStr fileName : String}
    {readResult : Except String Table} {reqs : List (String × ColReq)}
    {f : Finding} (hf : f ∈ validate_columns folderStr fileName readResult reqs) :
    f.line_number = "" := by
  unfold validate_columns at hf
  by_cases hcsv : hasCsvSuffix fileName
  · rw [if_pos hcsv] at hf
    cases readResult with
    | ok df =>
        rw [List.mem_map] at hf
        obtain ⟨col, -, hcol⟩ := hf
        rw [← hcol]
    | error e => simp at hf; subst hf; rfl
  · rw [if_neg hcsv] at hf
    simp at hf; subst hf; rfl

lemma raw_check_files_line_number {base : String} {fs : BaseDir} {cfg : RawConfig}
    {f : Finding} (hf : f ∈ RawValidator.check_files base fs cfg) :
    f.line_number = "" := by
  unfold RawValidator.check_files at hf
  rw [List.mem_flatMap] at hf
  obtain ⟨fr, -, hf⟩ := hf
  cases hlk : fs.lookup fr.1 <;> rw [hlk] at hf
  · simp at hf
  · rw [List.mem_flatMap] at hf
    obtain ⟨e, -, hf⟩ := hf
    split at hf
    · exact validate_columns_line_number hf
    · simp at hf

lemma raw_validate_line_number {cfg : RawConfig} {base : String} {fs : BaseDir}
    {f : Finding} (hf : f ∈ RawValidator.validate cfg base fs) :
    f.line_number = "" := by
  unfold RawValidator.validate at hf
  rw [List.mem_append] at hf
  rcases hf with hf | hf
  · exact check_folders_line_number hf
  · exact raw_check_files_line_number hf

/-- C1: the claim expects RAW mode to check files cell by cell, with a
non-numeric cell in the 3rd data row of an `int` column producing an error
Finding at line 4.  `RawValidator._validate_columns` only checks column
presence: on exactly that scenario the whole run yields no Finding at
all. -/
theorem raw_mode_cell_check_cex :
    RawValidator.validate rawAgeConfig "base" rawAgeFs = [] := by decide

/-- C1 (amended): in RAW mode each regular file directly inside a
configured folder is checked against the folder's shared requirement set
for column presence only: when every required column is present the file
contributes no Finding whatever its cell values, and no Finding of a RAW
run ever carries a line number. -/
theorem raw_mode_presence_only :
    (∀ (folderStr fileName : String) (df : Table) (reqs : List (String × ColReq)),
        hasCsvSuffix fileName = true →
        ((reqs.map Prod.fst).filter fun col => !df.columns.contains col) = [] →
        validate_columns folderStr fileName (Except.ok df) reqs = []) ∧
    (∀ (cfg : RawConfig) (base : String) (fs : BaseDir) (f : Finding),
        f ∈ RawValidator.validate cfg base fs → f.line_number = "") := by
  constructor
  · intro folderStr fileName df reqs hcsv hall
    unfold validate_columns
    rw [hcsv, if_pos rfl]
    show List.map _ _ = []
    rw [hall, List.map_nil]
  · intro cfg base fs f hf
    exact raw_validate_line_number hf

/-- Witness for C1's amended theorem at the `age:int` scenario. -/
theorem raw_mode_presence_only_witness :
    validate_columns "base/data" "x.csv" (Except.ok rawAgeTable)
        [("age", ⟨"int", false⟩)] = []
    ∧ (⟨"error", "Required folder 'a' is missing", "", "/x/a", ""⟩ : Finding).line_number
        = "" :=
  ⟨raw_mode_presence_only.1 "base/data" "x.csv" rawAgeTable [("age", ⟨"int", false⟩)]
      (by decide) (by decide),
    raw_mode_presence_only.2 ⟨["a"], []⟩ "/x" [] _ (by decide)⟩

/-- C2: the claim expects exactly one "Unsupported data type" Finding per
(column, file).  The unrecognized-type branch sits inside the row loop, so
a two-row file produces two such Findings for a single `bool` column. -/
theorem unsupported_type_cex :
    SourceValidator.validate_column_type twoRowTable "b" "bool" "f.csv" "base/d" false
      = [⟨"error", "Unsupported data type 'bool' for column b", "f.csv", "base/d", ""⟩,
         ⟨"error", "Unsupported data type 'bool' for column b", "f.csv", "base/d", ""⟩] := by
  decide

/-! ### Counting findings of the cell loop -/

lemma null_ne_unsupported (column t : String) :
    "NULL value not allowed for the column " ++ column
      ≠ "Unsupported data type '" ++ t ++ "' for column " ++ column := by
  have h := string_append_take_ne "NULL value not allowed for the column "
      "Unsupported data type '" column (t ++ ("' for column " ++ column)) 1
      (by decide) (by decide) (by decide)
  simpa [String.append_assoc] using h

lemma validateCellsFrom_unsupported_count (column t fn fd : String) (nb : Bool)
    (h1 : t ≠ "int") (h2 : t ≠ "float") (h3 : t ≠ "datetime") (h4 : t ≠ "str")
    (idx : Nat) (cells : List Cell) :
    (validateCellsFrom column t fn fd nb idx cells).countP
        (fun f => f.error_text == "Unsupported data type '" ++ t ++ "' for column " ++ column)
      = cells.countP (fun c => !c.isNA) := by
  induction cells generalizing idx with
  | nil => simp [validateCellsFrom]
  | cons c rest ih =>
      rw [validateCellsFrom, List.countP_append, List.countP_cons, ih (idx + 1)]
      by_cases hna : c.isNA = true
      · cases nb <;>
          simp [cellFindings, hna, List.countP_cons, beq_iff_eq,
            null_ne_unsupported column t]
      · simp [cellFindings, hna, h1, h2, h3, h4, List.countP_cons, beq_iff_eq,
          Nat.add_comm]

lemma validateCellsFrom_null_count (column t fn fd : String) (nb : Bool)
    (h1 : t ≠ "int") (h2 : t ≠ "float") (h3 : t ≠ "datetime") (h4 : t ≠ "str")
    (idx : Nat) (cells : List Cell) :
    (validateCellsFrom column t fn fd nb idx cells).countP
        (fun f => f.error_text == "NULL value not allowed for the column " ++ column)
      = if nb then 0 else cells.countP (fun c => c.isNA) := by
  induction cells generalizing idx with
  | nil => cases nb <;> simp [validateCellsFrom]
  | cons c rest ih =>
      rw [validateCellsFrom, List.countP_append, ih (idx + 1)]
      by_cases hna : c.isNA = true
      · cases nb <;>
          simp [cellFindings, hna, List.countP_cons, beq_iff_eq, Nat.add_comm]
      · cases nb <;>
          simp [cellFindings, hna, h1, h2, h3, h4, List.countP_cons, beq_iff_eq,
            (null_ne_unsupported column t).symm]

/-- C2: for a column whose declared type is none of `int`, `float`,
`datetime`, `str`, the claim expects one error Finding per (column, file)
with row checking skipped; in the code the unrecognized-type branch lies
inside the row loop, so (amended) one such Finding is emitted per non-null
cell of the column, and null cells still undergo the nullability check
instead of being skipped. -/
theorem unsupported_type_per_row (df : Table) (column t fileName folderStr : String)
    (nullable : Bool)
    (h1 : t ≠ "int") (h2 : t ≠ "float") (h3 : t ≠ "datetime") (h4 : t ≠ "str") :
    (SourceValidator.validate_column_type df column t fileName folderStr nullable).countP
        (fun f => f.error_text == "Unsupported data type '" ++ t ++ "' for column " ++ column)
      = (df.col column).countP (fun c => !c.isNA)
    ∧ (SourceValidator.validate_column_type df column t fileName folderStr nullable).countP
        (fun f => f.error_text == "NULL value not allowed for the column " ++ column)
      = if nullable then 0 else (df.col column).countP (fun c => c.isNA) := by
  unfold SourceValidator.validate_column_type
  exact ⟨validateCellsFrom_unsupported_count column t fileName folderStr nullable
      h1 h2 h3 h4 2 (df.col column),
    validateCellsFrom_null_count column t fileName folderStr nullable
      h1 h2 h3 h4 2 (df.col column)⟩

/-- Witness for C2's amended theorem: two non-null rows of a `bool` column
give two unsupported-type Findings and no NULL Finding. -/
theorem unsupported_type_per_row_witness :
    (SourceValidator.validate_column_type twoRowTable "b" "bool" "f.csv" "base/d" false).countP
        (fun f => f.error_text == "Unsupported data type '" ++ "bool" ++ "' for column " ++ "b")
      = 2
    ∧ (SourceValidator.validate_column_type twoRowTable "b" "bool" "f.csv" "base/d" false).countP
        (fun f => f.error_text == "NULL value not allowed for the column " ++ "b")
      = 0 := by
  have h := unsupported_type_per_row twoRowTable "b" "bool" "f.csv" "base/d" false
    (by decide) (by decide) (by decide) (by decide)
  exact ⟨h.1.trans (by decide), h.2.trans (by decide)⟩

lemma file_schema_missing_eq
    (folderStr fileName : String) (df : Table) (reqs : List (String × ColReq))
    (hcsv : hasCsvSuffix fileName = true)
    (hmiss : ((reqs.map Prod.fst).filter fun col => !df.columns.contains col) ≠ []) :
    SourceValidator.validate_file_schema folderStr fileName (Except.ok df) reqs
      = ((reqs.map Prod.fst).filter fun col => !df.columns.contains col).map fun col =>
          ⟨"error", "Required column '" ++ col ++ "' is missing",
            fileName, folderStr, ""⟩ := by
  unfold SourceValidator.validate_file_schema
  rw [hcsv, if_pos rfl]
  show (if _ then _ else _) = _
  rw [if_pos]
  simpa [List.isEmpty_iff] using hmiss

lemma file_schema_ok_case
    (folderStr fileName : String) (df : Table) (reqs : List (String × ColReq))
    (hcsv : hasCsvSuffix fileName = true)
    (hmiss : ((reqs.map Prod.fst).filter fun col => !df.columns.contains col) = []) :
    SourceValidator.validate_file_schema folderStr fileName (Except.ok df) reqs
      = ((df.columns.filter fun col => !(reqs.map Prod.fst).contains col).map fun col =>
          (⟨"warning", "Unexpected column '" ++ col ++ "' found",
            fileName, folderStr, ""⟩ : Finding))
        ++ reqs.flatMap fun cr =>
            SourceValidator.validate_column_type df cr.1 cr.2.type
              fileName folderStr cr.2.nullable := by
  unfold SourceValidator.validate_file_schema
  rw [hcsv, if_pos rfl]
  show (if _ then _ else _) = _
  rw [if_neg]
  rw [hmiss]
  decide

/-- C3: when a file misses one or more required columns, the schema check
emits exactly one error Finding per missing column and nothing else for
that file: the early `return` suppresses every cell-level Finding and
every extra-column warning. -/
theorem missing_columns_short_circuit
    (folderStr fileName : String) (df : Table) (reqs : List (String × ColReq))
    (hcsv : hasCsvSuffix fileName = true)
    (hmiss : ((reqs.map Prod.fst).filter fun col => !df.columns.contains col) ≠ []) :
    SourceValidator.validate_file_schema folderStr fileName (Except.ok df) reqs
      = ((reqs.map Prod.fst).filter fun col => !df.columns.contains col).map fun col =>
          ⟨"error", "Required column '" ++ col ++ "' is missing",
            fileName, folderStr, ""⟩ :=
  file_schema_missing_eq folderStr fileName df reqs hcsv hmiss

/-- Witness for C3: a file with only column `id` against schema
`id:int, ts:datetime` yields exactly the missing-`ts` error. -/
theorem missing_columns_short_circuit_witness :
    SourceValidator.validate_file_schema "base/s" "f.csv" (Except.ok idOnlyTable) idTsReqs
      = [⟨"error", "Required column 'ts' is missing", "f.csv", "base/s", ""⟩] := by
  have h := missing_columns_short_circuit "base/s" "f.csv" idOnlyTable idTsReqs
    (by decide) (by decide)
  rw [h]; decide

/-- C4: in SOURCE-mode cell checking a null cell of a `nullable: false`
column contributes exactly one error Finding at line `n + 1` for the
`n`-th data row (here the row count before the cell is `xs.length`, so the
row is `xs.length + 1` and the line `xs.length + 2`); with
`nullable: true` it contributes nothing; in both cases the `continue`
prevents any type check of that cell, the remaining rows being processed
unchanged. -/
theorem null_cell_policy (df : Table) (column expected_type fileName folderStr : String)
    (nullable : Bool) (xs ys : List Cell) (c : Cell)
    (hsplit : df.col column = xs ++ c :: ys) (hNA : c.isNA = true) :
    SourceValidator.validate_column_type df column expected_type fileName folderStr nullable
      = validateCellsFrom column expected_type fileName folderStr nullable 2 xs
        ++ (if nullable then []
            else [⟨"error", "NULL value not allowed for the column " ++ column,
                  fileName, folderStr, toString (xs.length + 2)⟩])
        ++ validateCellsFrom column expected_type fileName folderStr nullable
            (xs.length + 3) ys := by
  unfold SourceValidator.validate_column_type
  rw [hsplit, validateCellsFrom_append]
  have h1 : 2 + xs.length = xs.length + 2 := by omega
  have h2 : xs.length + 2 + 1 = xs.length + 3 := by omega
  rw [validateCellsFrom, h1, h2, ← List.append_assoc]
  cases nullable <;> simp [cellFindings, hNA]

/-- Witness for C4: the null 2nd data row of `x` yields the NULL error at
line 3 and the surrounding numeric rows yield nothing. -/
theorem null_cell_policy_witness :
    SourceValidator.validate_column_type midNullTable "x" "int" "f.csv" "base/d" false
      = [⟨"error", "NULL value not allowed for the column x", "f.csv", "base/d", "3"⟩] := by
  have h := null_cell_policy midNullTable "x" "int" "f.csv" "base/d" false
    [cellNum] [cellNum] cellNA (by decide) (by decide)
  rw [h]; decide

/-- C5: the claim expects the Finding for a missing required folder `a` to
carry `folder_name = "a"`; the code stores `str(folder_path)`, the full
joined path, so at base path `/data` the produced Finding differs from the
claimed one. -/
theorem missing_folder_cex :
    RawValidator.validate ⟨["a"], []⟩ "/data" []
      ≠ [⟨"error", "Required folder 'a' is missing", "", "a", ""⟩] := by
  decide

/-- C5 (amended): for every base path whose listing has no folder `a`, a
run requiring exactly folder `a` produces exactly one Finding
`{error, "Required folder 'a' is missing", '', str(base_path/'a'), ''}`:
its `folder_name` is the full joined path, not the bare folder name. -/
theorem missing_folder_full_path (base : String) (fs : BaseDir)
    (h : fs.lookup "a" = none) :
    RawValidator.validate ⟨["a"], []⟩ base fs
      = [⟨"error", "Required folder 'a' is missing", "", joinPath base "a", ""⟩] := by
  simp [RawValidator.validate, check_folders, RawValidator.check_files,
    folderFindings, h]

/-- Witness for C5's amended theorem at base path `/data`. -/
theorem missing_folder_full_path_witness :
    RawValidator.validate ⟨["a"], []⟩ "/data" []
      = [⟨"error", "Required folder 'a' is missing", "", "/data/a", ""⟩] := by
  rw [missing_folder_full_path "/data" [] rfl]; decide

/-! ### Folder findings: which branch produced a finding -/

lemma folderFindings_missing_mem {base : String} {fs : BaseDir} {folder x : String}
    (h : (⟨"error", "Required folder '" ++ folder ++ "' is missing",
          "", joinPath base folder, ""⟩ : Finding) ∈ folderFindings base fs x) :
    fs.lookup folder = none := by
  unfold folderFindings at h
  cases hlk : fs.lookup x <;> rw [hlk] at h <;> simp at h
  obtain ⟨-, hname⟩ := h
  unfold joinPath at hname
  rw [string_append_left_cancel hname]
  exact hlk

lemma folderFindings_warn_mem {base : String} {fs : BaseDir} {folder x : String}
    (h : (⟨"warning", "Folder '" ++ folder ++ "' does not contain any file",
          "", joinPath base folder, ""⟩ : Finding) ∈ folderFindings base fs x) :
    fs.lookup folder = some [] := by
  unfold folderFindings at h
  cases hlk : fs.lookup x <;> rw [hlk] at h <;> simp at h
  obtain ⟨hempty, -, hname⟩ := h
  unfold joinPath at hname
  rw [string_append_left_cancel hname]
  rw [hlk, hempty]

/-- C6: a required folder that exists with an empty `iterdir` contributes
exactly one warning (never error) Finding to the folder pass, and for any
run the folder-missing error and folder-empty warning of one folder are
mutually exclusive. -/
theorem empty_folder_warning :
    (∀ (base : String) (fs : BaseDir) (xs ys : List String) (folder : String),
        fs.lookup folder = some [] →
        check_folders base fs (xs ++ folder :: ys)
          = check_folders base fs xs
            ++ [⟨"warning", "Folder '" ++ folder ++ "' does not contain any file",
                "", joinPath base folder, ""⟩]
            ++ check_folders base fs ys) ∧
    (∀ (base : String) (fs : BaseDir) (req : List String) (folder : String),
        ¬((⟨"error", "Required folder '" ++ folder ++ "' is missing",
              "", joinPath base folder, ""⟩ : Finding) ∈ check_folders base fs req
          ∧ (⟨"warning", "Folder '" ++ folder ++ "' does not contain any file",
              "", joinPath base folder, ""⟩ : Finding) ∈ check_folders base fs req)) := by
  constructor
  · intro base fs xs ys folder h
    unfold check_folders
    rw [List.flatMap_append, List.flatMap_cons]
    have hbody : folderFindings base fs folder
        = [⟨"warning", "Folder '" ++ folder ++ "' does not contain any file",
            "", joinPath base folder, ""⟩] := by
      unfold folderFindings; rw [h]; rfl
    rw [hbody, List.append_assoc]
  · intro base fs req folder ⟨hm, hw⟩
    unfold check_folders at hm hw
    rw [List.mem_flatMap] at hm hw
    obtain ⟨x, -, hm⟩ := hm
    obtain ⟨y, -, hw⟩ := hw
    have h1 := folderFindings_missing_mem hm
    have h2 := folderFindings_warn_mem hw
    rw [h1] at h2
    exact Option.noConfusion h2

/-- Witness for C6 with the existing-but-empty folder `a` and, for the
exclusivity part, folder `b`. -/
theorem empty_folder_warning_witness :
    check_folders "base" [("a", [])] ([] ++ "a" :: [])
      = check_folders "base" [("a", [])] []
        ++ [⟨"warning", "Folder 'a' does not contain any file", "", joinPath "base" "a", ""⟩]
        ++ check_folders "base" [("a", [])] []
    ∧ ¬((⟨"error", "Required folder 'b' is missing", "", joinPath "base" "b", ""⟩ : Finding)
          ∈ check_folders "base" [("a", [])] ["a"]
        ∧ (⟨"warning", "Folder 'b' does not contain any file", "", joinPath "base" "b", ""⟩ : Finding)
          ∈ check_folders "base" [("a", [])] ["a"]) :=
  ⟨empty_folder_warning.1 "base" [("a", [])] [] [] "a" rfl,
    empty_folder_warning.2 "base" [("a", [])] ["a"] "b"⟩

/-- C10: a required folder that exists and has at least one directory
entry of any kind — regular file or not — contributes no Finding to the
folder pass: `any(folder_path.iterdir())` counts every entry, so a folder
holding only subdirectories raises no "does not contain any file"
warning. -/
theorem nonempty_folder_no_finding (base : String) (fs : BaseDir)
    (xs ys : List String) (folder : String) (entries : List FolderEntry)
    (hlk : fs.lookup folder = some entries) (hne : entries ≠ []) :
    check_folders base fs (xs ++ folder :: ys)
      = check_folders base fs xs ++ check_folders base fs ys := by
  unfold check_folders
  rw [List.flatMap_append, List.flatMap_cons]
  have hbody : folderFindings base fs folder = [] := by
    unfold folderFindings
    rw [hlk]
    simp [List.isEmpty_iff, hne]
  rw [hbody, List.nil_append]

/-- Witness for C10 at a folder holding a single subdirectory and no
regular file. -/
theorem nonempty_folder_no_finding_witness :
    check_folders "base" subdirOnlyFs ([] ++ "d" :: [])
      = check_folders "base" subdirOnlyFs [] ++ check_folders "base" subdirOnlyFs [] :=
  nonempty_folder_no_finding "base" subdirOnlyFs [] [] "d"
    [⟨"sub", false, Except.error "IsADirectoryError"⟩] rfl (List.cons_ne_nil _ _)

/-! ### Error texts a RAW run can produce -/

lemma validate_columns_text {folderStr fileName : String}
    {readResult : Except String Table} {reqs : List (String × ColReq)} {f : Finding}
    (hf : f ∈ validate_columns folderStr fileName readResult reqs) :
    (∃ s, f.error_text = "Required column '" ++ s) ∨
    (∃ s, f.error_text = "Failed to read " ++ s) ∨
    (∃ s, f.error_text = "Unsupported file format: " ++ s) := by
  unfold validate_columns at hf
  by_cases hcsv : hasCsvSuffix fileName
  · rw [if_pos hcsv] at hf
    cases readResult with
    | ok df =>
        rw [List.mem_map] at hf
        obtain ⟨col, -, hcol⟩ := hf
        exact Or.inl ⟨col ++ "' is missing", by rw [← hcol]; simp [String.append_assoc]⟩
    | error e =>
        simp at hf; subst hf
        exact Or.inr (Or.inl ⟨joinPath folderStr fileName ++ (": " ++ e),
          by simp [String.append_assoc]⟩)
  · rw [if_neg hcsv] at hf
    simp at hf; subst hf
    exact Or.inr (Or.inr ⟨joinPath folderStr fileName, rfl⟩)

lemma folderFindings_text {base : String} {fs : BaseDir} {folder : String} {f : Finding}
    (hf : f ∈ folderFindings base fs folder) :
    (∃ s, f.error_text = "Required folder '" ++ s) ∨
    (∃ s, f.error_text = "Folder '" ++ s) := by
  unfold folderFindings at hf
  cases hlk : fs.lookup folder <;> rw [hlk] at hf <;> simp at hf
  · subst hf
    exact Or.inl ⟨folder ++ "' is missing", by simp [String.append_assoc]⟩
  · obtain ⟨-, rfl⟩ := hf
    exact Or.inr ⟨folder ++ "' does not contain any file", by simp [String.append_assoc]⟩

lemma raw_validate_text {cfg : RawConfig} {base : String} {fs : BaseDir} {f : Finding}
    (hf : f ∈ RawValidator.validate cfg base fs) :
    (∃ s, f.error_text = "Required folder '" ++ s) ∨
    (∃ s, f.error_text = "Folder '" ++ s) ∨
    (∃ s, f.error_text = "Required column '" ++ s) ∨
    (∃ s, f.error_text = "Failed to read " ++ s) ∨
    (∃ s, f.error_text = "Unsupported file format: " ++ s) := by
  unfold RawValidator.validate at hf
  rw [List.mem_append] at hf
  rcases hf with hf | hf
  · unfold check_folders at hf
    rw [List.mem_flatMap] at hf
    obtain ⟨folder, -, hf⟩ := hf
    rcases folderFindings_text hf with h | h
    · exact Or.inl h
    · exact Or.inr (Or.inl h)
  · unfold RawValidator.check_files at hf
    rw [List.mem_flatMap] at hf
    obtain ⟨fr, -, hf⟩ := hf
    cases hlk : fs.lookup fr.1 <;> rw [hlk] at hf
    · simp at hf
    · rw [List.mem_flatMap] at hf
      obtain ⟨e, -, hf⟩ := hf
      split at hf
      · rcases validate_columns_text hf with h | h | h
        · exact Or.inr (Or.inr (Or.inl h))
        · exact Or.inr (Or.inr (Or.inr (Or.inl h)))
        · exact Or.inr (Or.inr (Or.inr (Or.inr h)))
      · simp at hf

/-- C7: with every required column present, SOURCE-mode schema checking
emits exactly one warning Finding per extra (undeclared) column and then
still runs the per-column cell checks; a RAW run, by contrast, never
produces an "Unexpected column ... found" Finding on any input. -/
theorem extra_columns_source_only :
    (∀ (folderStr fileName : String) (df : Table) (reqs : List (String × ColReq)),
        hasCsvSuffix fileName = true →
        ((reqs.map Prod.fst).filter fun col => !df.columns.contains col) = [] →
        SourceValidator.validate_file_schema folderStr fileName (Except.ok df) reqs
          = ((df.columns.filter fun col => !(reqs.map Prod.fst).contains col).map fun col =>
              (⟨"warning", "Unexpected column '" ++ col ++ "' found",
                fileName, folderStr, ""⟩ : Finding))
            ++ reqs.flatMap fun cr =>
                SourceValidator.validate_column_type df cr.1 cr.2.type
                  fileName folderStr cr.2.nullable) ∧
    (∀ (cfg : RawConfig) (base : String) (fs : BaseDir) (col : String) (f : Finding),
        f ∈ RawValidator.validate cfg base fs →
        f.error_text ≠ "Unexpected column '" ++ col ++ "' found") := by
  constructor
  · intro folderStr fileName df reqs hcsv hmiss
    exact file_schema_ok_case folderStr fileName df reqs hcsv hmiss
  · intro cfg base fs col f hf heq
    rw [String.append_assoc] at heq
    rcases raw_validate_text hf with ⟨s, hs⟩ | ⟨s, hs⟩ | ⟨s, hs⟩ | ⟨s, hs⟩ | ⟨s, hs⟩ <;>
      rw [hs] at heq
    · exact string_append_take_ne "Required folder '" "Unexpected column '" s
        (col ++ "' found") 1 (by decide) (by decide) (by decide) heq
    · exact string_append_take_ne "Folder '" "Unexpected column '" s
        (col ++ "' found") 1 (by decide) (by decide) (by decide) heq
    · exact string_append_take_ne "Required column '" "Unexpected column '" s
        (col ++ "' found") 1 (by decide) (by decide) (by decide) heq
    · exact string_append_take_ne "Failed to read " "Unexpected column '" s
        (col ++ "' found") 1 (by decide) (by decide) (by decide) heq
    · exact string_append_take_ne "Unsupported file format: " "Unexpected column '" s
        (col ++ "' found") 3 (by decide) (by decide) (by decide) heq

/-- Witness for C7: a file with the undeclared column `extra` and all
required columns present yields exactly the one warning, and a concrete
RAW-run Finding is no extra-column report. -/
theorem extra_columns_source_only_witness :
    SourceValidator.validate_file_schema "base/s" "f.csv" (Except.ok extraColTable)
        [("id", ⟨"int", false⟩)]
      = [⟨"warning", "Unexpected column 'extra' found", "f.csv", "base/s", ""⟩]
    ∧ (⟨"error", "Required folder 'a' is missing", "", "/x/a", ""⟩ : Finding).error_text
        ≠ "Unexpected column '" ++ "q" ++ "' found" := by
  constructor
  · have h := extra_columns_source_only.1 "base/s" "f.csv" extraColTable
      [("id", ⟨"int", false⟩)] (by decide) (by decide)
    rw [h]; decide
  · exact extra_columns_source_only.2 ⟨["a"], []⟩ "/x" [] "q" _ (by decide)

/-! ### The report write touches only the `validation_report` folder -/

lemma flatMap_congr_mem {α β : Type} {l : List α} {f g : α → List β}
    (h : ∀ a ∈ l, f a = g a) : l.flatMap f = l.flatMap g := by
  induction l with
  | nil => rfl
  | cons a t ih =>
      rw [List.flatMap_cons, List.flatMap_cons, h a (by simp),
        ih fun b hb => h b (by simp [hb])]

lemma lookup_append_single (fs : BaseDir) (k n : String) (v : List FolderEntry)
    (h : n ≠ k) : (fs ++ [(n, v)]).lookup k = fs.lookup k := by
  induction fs with
  | nil =>
      show List.lookup k [(n, v)] = List.lookup k []
      rw [List.lookup, List.lookup]
      cases hkn : k == n
      · rfl
      · exact absurd (beq_iff_eq.1 hkn).symm h
  | cons p t ih =>
      rw [List.cons_append]
      show List.lookup k ((p.1, p.2) :: (t ++ [(n, v)])) = List.lookup k ((p.1, p.2) :: t)
      rw [List.lookup, List.lookup]
      cases hkp : k == p.1
      · exact ih
      · rfl

lemma lookup_map_update (fs : BaseDir) (k : String) (r : FolderEntry)
    (hk : k ≠ "validation_report") :
    (fs.map fun p =>
        if p.1 = "validation_report" then (p.1, p.2 ++ [r]) else p).lookup k
      = fs.lookup k := by
  induction fs with
  | nil => rfl
  | cons p t ih =>
      rw [List.map_cons]
      by_cases hp : p.1 = "validation_report"
      · rw [if_pos hp]
        show List.lookup k ((p.1, p.2 ++ [r]) :: _) = List.lookup k ((p.1, p.2) :: t)
        rw [List.lookup, List.lookup]
        cases hkp : k == p.1
        · exact ih
        · exact absurd (hp ▸ beq_iff_eq.1 hkp) hk
      · rw [if_neg hp]
        show List.lookup k ((p.1, p.2) :: _) = List.lookup k ((p.1, p.2) :: t)
        rw [List.lookup, List.lookup]
        cases hkp : k == p.1
        · exact ih
        · rfl

lemma lookup_generate_report (fs : BaseDir) (r : FolderEntry) (k : String)
    (hk : k ≠ "validation_report") :
    (generate_report_fs fs r).lookup k = fs.lookup k := by
  unfold generate_report_fs
  cases hvr : fs.lookup "validation_report"
  · exact lookup_append_single fs k "validation_report" [r] (Ne.symm hk)
  · exact lookup_map_update fs k r hk

/-- C8: running validation again over the tree left behind by a first run
— unchanged except for the report file that `_generate_report` wrote under
`validation_report/` — yields the same Finding sequence as the first run,
in both modes, whenever the configuration does not itself require or scan
a folder named `validation_report`. -/
theorem validation_idempotent (cfgR : RawConfig) (cfgS : SourceConfig)
    (base : String) (fs : BaseDir) (report : FolderEntry)
    (hR1 : "validation_report" ∉ cfgR.required_folders)
    (hR2 : ∀ p ∈ cfgR.file_requirements, p.1 ≠ "validation_report")
    (hS1 : "validation_report" ∉ cfgS.required_folders)
    (hS2 : ∀ p ∈ cfgS.folder_file_requirements, p.1 ≠ "validation_report") :
    RawValidator.validate cfgR base (generate_report_fs fs report)
      = RawValidator.validate cfgR base fs
    ∧ SourceValidator.validate cfgS base (generate_report_fs fs report)
      = SourceValidator.validate cfgS base fs := by
  have hfold : ∀ (req : List String), "validation_report" ∉ req →
      check_folders base (generate_report_fs fs report) req = check_folders base fs req := by
    intro req hreq
    unfold check_folders
    refine flatMap_congr_mem fun folder hmem => ?_
    unfold folderFindings
    rw [lookup_generate_report fs report folder (fun heq => hreq (heq ▸ hmem))]
  constructor
  · unfold RawValidator.validate
    rw [hfold cfgR.required_folders hR1]
    unfold RawValidator.check_files
    rw [flatMap_congr_mem fun fr hfr =>
      by rw [lookup_generate_report fs report fr.1 (hR2 fr hfr)]]
  · unfold SourceValidator.validate
    rw [hfold cfgS.required_folders hS1]
    unfold SourceValidator.check_files
    rw [flatMap_congr_mem fun fr hfr =>
      by rw [lookup_generate_report fs report fr.1 (hS2 fr hfr)]]

/-- Witness for C8 at concrete RAW and SOURCE configurations and a
concrete tree. -/
theorem validation_idempotent_witness :
    RawValidator.validate rawAgeConfig "b" (generate_report_fs rawAgeFs reportEntry)
      = RawValidator.validate rawAgeConfig "b" rawAgeFs
    ∧ SourceValidator.validate nullRunSourceCfg "b" (generate_report_fs rawAgeFs reportEntry)
      = SourceValidator.validate nullRunSourceCfg "b" rawAgeFs :=
  validation_idempotent rawAgeConfig nullRunSourceCfg "b" rawAgeFs reportEntry
    (by decide) (by decide) (by decide) (by decide)

/-! ### Line numbers of SOURCE-mode findings -/

lemma cellFindings_line {column t fn fd : String} {nb : Bool} {idx : Nat}
    {c : Cell} {f : Finding} (hf : f ∈ cellFindings column t fn fd nb idx c) :
    f.line_number = ""
      ∨ ∃ n, idx ≤ n ∧ f.line_number = toString n ∧ ∃ col,
          f.error_text = "NULL value not allowed for the column " ++ col ∨
          f.error_text = "Wrong datatype for the column " ++ col := by
  unfold cellFindings at hf
  split_ifs at hf <;> simp at hf <;> subst hf <;>
    first
      | exact Or.inl rfl
      | exact Or.inr ⟨idx, Nat.le_refl idx, rfl, column, Or.inl rfl⟩
      | exact Or.inr ⟨idx, Nat.le_refl idx, rfl, column, Or.inr rfl⟩

lemma validateCellsFrom_line (column t fn fd : String) (nb : Bool)
    (cells : List Cell) : ∀ (idx : Nat) (f : Finding),
    f ∈ validateCellsFrom column t fn fd nb idx cells →
    f.line_number = ""
      ∨ ∃ n, idx ≤ n ∧ f.line_number = toString n ∧ ∃ col,
          f.error_text = "NULL value not allowed for the column " ++ col ∨
          f.error_text = "Wrong datatype for the column " ++ col := by
  induction cells with
  | nil => intro idx f hf; simp [validateCellsFrom] at hf
  | cons c rest ih =>
      intro idx f hf
      rw [validateCellsFrom, List.mem_append] at hf
      rcases hf with hf | hf
      · exact cellFindings_line hf
      · rcases ih (idx + 1) f hf with h | ⟨n, hn, h2⟩
        · exact Or.inl h
        · exact Or.inr ⟨n, by omega, h2⟩

lemma validate_column_type_line {df : Table} {column t fn fd : String} {nb : Bool}
    {f : Finding}
    (hf : f ∈ SourceValidator.validate_column_type df column t fn fd nb) :
    f.line_number = ""
      ∨ ∃ n, 2 ≤ n ∧ f.line_number = toString n ∧ ∃ col,
          f.error_text = "NULL value not allowed for the column " ++ col ∨
          f.error_text = "Wrong datatype for the column " ++ col := by
  unfold SourceValidator.validate_column_type at hf
  exact validateCellsFrom_line column t fn fd nb (df.col column) 2 f hf

lemma validate_file_schema_line {folderStr fileName : String}
    {rr : Except String Table} {reqs : List (String × ColReq)} {f : Finding}
    (hf : f ∈ SourceValidator.validate_file_schema folderStr fileName rr reqs) :
    f.line_number = ""
      ∨ ∃ n, 2 ≤ n ∧ f.line_number = toString n ∧ ∃ col,
          f.error_text = "NULL value not allowed for the column " ++ col ∨
          f.error_text = "Wrong datatype for the column " ++ col := by
  by_cases hcsv : hasCsvSuffix fileName = true
  · cases rr with
    | error e =>
        unfold SourceValidator.validate_file_schema at hf
        rw [hcsv, if_pos rfl] at hf
        simp at hf; subst hf; exact Or.inl rfl
    | ok df =>
        by_cases hm : ((reqs.map Prod.fst).filter fun col => !df.columns.contains col) = []
        · rw [file_schema_ok_case folderStr fileName df reqs hcsv hm] at hf
          rw [List.mem_append] at hf
          rcases hf with hf | hf
          · rw [List.mem_map] at hf
            obtain ⟨col, -, hcol⟩ := hf
            rw [← hcol]
            exact Or.inl rfl
          · rw [List.mem_flatMap] at hf
            obtain ⟨cr, -, hf⟩ := hf
            exact validate_column_type_line hf
        · rw [file_schema_missing_eq folderStr fileName df reqs hcsv hm] at hf
          rw [List.mem_map] at hf
          obtain ⟨col, -, hcol⟩ := hf
          rw [← hcol]
          exact Or.inl rfl
  · unfold SourceValidator.validate_file_schema at hf
    rw [if_neg hcsv] at hf
    simp at hf; subst hf; exact Or.inl rfl

lemma source_check_files_line {base : String} {fs : BaseDir} {cfg : SourceConfig}
    {f : Finding} (hf : f ∈ SourceValidator.check_files base fs cfg) :
    f.line_number = ""
      ∨ ∃ n, 2 ≤ n ∧ f.line_number = toString n ∧ ∃ col,
          f.error_text = "NULL value not allowed for the column " ++ col ∨
          f.error_text = "Wrong datatype for the column " ++ col := by
  unfold SourceValidator.check_files at hf
  rw [List.mem_flatMap] at hf
  obtain ⟨fr, -, hf⟩ := hf
  cases hlk : fs.lookup fr.1 with
  | none => rw [hlk] at hf; simp at hf
  | some entries =>
      rw [hlk] at hf
      rw [List.mem_flatMap] at hf
      obtain ⟨freq, -, hf⟩ := hf
      cases hfind : List.find? (fun e => e.name == freq.1) entries <;> rw [hfind] at hf
      · simp at hf; subst hf; exact Or.inl rfl
      · exact validate_file_schema_line hf

/-- C9: every Finding of a run carries a line_number that is either the
empty string or the decimal representation of some `n ≥ 2`, a RAW run's
Findings all carry the empty string, and a non-empty line_number occurs
only on the per-cell "NULL value not allowed" and "Wrong datatype"
Findings of SOURCE-mode cell checking — folder-, file- and column-level
Findings all carry the empty string. -/
theorem line_number_invariant (base : String) (fs : BaseDir)
    (cfgR : RawConfig) (cfgS : SourceConfig) :
    (∀ f ∈ RawValidator.validate cfgR base fs, f.line_number = "") ∧
    (∀ f ∈ SourceValidator.validate cfgS base fs,
        (f.line_number = "" ∨ ∃ n, 2 ≤ n ∧ f.line_number = toString n) ∧
        (f.line_number ≠ "" → ∃ col,
            f.error_text = "NULL value not allowed for the column " ++ col ∨
            f.error_text = "Wrong datatype for the column " ++ col)) := by
  constructor
  · intro f hf
    exact raw_validate_line_number hf
  · intro f hf
    unfold SourceValidator.validate at hf
    rw [List.mem_append] at hf
    have hd :
        f.line_number = ""
          ∨ ∃ n, 2 ≤ n ∧ f.line_number = toString n ∧ ∃ col,
              f.error_text = "NULL value not allowed for the column " ++ col ∨
              f.error_text = "Wrong datatype for the column " ++ col := by
      rcases hf with hf | hf
      · exact Or.inl (check_folders_line_number hf)
      · exact source_check_files_line hf
    rcases hd with h | ⟨n, hn, hline, hcol⟩
    · exact ⟨Or.inl h, fun hne => absurd h hne⟩
    · exact ⟨Or.inr ⟨n, hn, hline⟩, fun _ => hcol⟩

/-- Witness for C9 at a RAW run producing a folder error and a SOURCE run
producing a NULL-cell error at line 3. -/
theorem line_number_invariant_witness :
    (⟨"error", "Required folder 'a' is missing", "", "b/a", ""⟩ : Finding).line_number = ""
    ∧ (((⟨"error", "NULL value not allowed for the column x",
            "f.csv", "b/d", "3"⟩ : Finding).line_number = ""
        ∨ ∃ n, 2 ≤ n ∧ (⟨"error", "NULL value not allowed for the column x",
            "f.csv", "b/d", "3"⟩ : Finding).line_number = toString n) ∧
       ((⟨"error", "NULL value not allowed for the column x",
            "f.csv", "b/d", "3"⟩ : Finding).line_number ≠ "" → ∃ col,
          (⟨"error", "NULL value not allowed for the column x",
            "f.csv", "b/d", "3"⟩ : Finding).error_text
              = "NULL value not allowed for the column " ++ col ∨
          (⟨"error", "NULL value not allowed for the column x",
            "f.csv", "b/d", "3"⟩ : Finding).error_text
              = "Wrong datatype for the column " ++ col)) :=
  ⟨(line_number_invariant "b" nullRunFs ⟨["a"], []⟩ nullRunSourceCfg).1 _ (by decide),
    (line_number_invariant "b" nullRunFs ⟨["a"], []⟩ nullRunSourceCfg).2 _ (by decide)⟩
